import Mathlib

/-!
Shallow embedding of the BloodLinkBd socket chat server (socket.io backend).

The model follows the event handlers registered in the server source
(`user_online`, `join_chat`, `accept_chat`, `send_message`, `typing`,
`stop_typing`, `mark_as_read`, `disconnect`) together with the mongoose
schemas for chats and messages.  MongoDB documents are modelled as Lean
structures held in lists (insertion = natural order); the `onlineUsers`
JavaScript `Map` is a key/value association list with `Map.set` /
`Map.get` / `Map.delete` semantics; socket.io side effects (`emit`,
`io.to(room).emit`, ...) are collected in an explicit effect list.
-/

namespace BloodLink

/-! ### Generic list helpers (association maps, in-place updates) -/

/-- Replace the value at the first occurrence of key `k`, or append. Models `Map.set`. -/
def mapSet {κ ν : Type} [DecidableEq κ] (k : κ) (v : ν) : List (κ × ν) → List (κ × ν)
  | [] => [(k, v)]
  | (k', v') :: rest => if k = k' then (k, v) :: rest else (k', v') :: mapSet k v rest

/-- Value bound to key `k`, if any. Models `Map.get`. -/
def mapGet {κ ν : Type} [DecidableEq κ] (k : κ) : List (κ × ν) → Option ν
  | [] => none
  | (k', v) :: rest => if k = k' then some v else mapGet k rest

/-- Remove every binding of key `k`. Models `Map.delete` (keys are unique in a JS Map). -/
def mapDelete {κ ν : Type} [DecidableEq κ] (k : κ) (l : List (κ × ν)) : List (κ × ν) :=
  l.filter (fun p => !(decide (p.1 = k)))

/-- Apply `f` to the first element satisfying `q`, leaving the rest unchanged.
Models an update of the single document matched by a MongoDB `_id` query. -/
def updateFirst {α : Type} (q : α → Bool) (f : α → α) : List α → List α
  | [] => []
  | x :: xs => if q x then f x :: xs else x :: updateFirst q f xs

/-! ### Data model (mongoose schemas `chatSchema`, `messageSchema`) -/

/-- Opaque stable user identifier (a MongoDB ObjectId string in the source). -/
abbrev UserId := String

/-- A socket.io connection identifier (`socket.id`). -/
abbrev SocketId := Nat

/-- Schema `chatSchema`: the persistent Chat document (the fields the server core reads/writes). -/
structure Chat where
  id : Nat
  participants : List UserId
  lastMessage : Option Nat := none
deriving DecidableEq, Repr

/-- The `status` enum of `messageSchema`: `["sent", "delivered", "read"]`. -/
inductive MsgStatus where
  | sent
  | delivered
  | read
deriving DecidableEq, Repr

/-- Schema `messageSchema`: the persistent Message document. `createdAt` comes from
the schema's `timestamps: true` option and records creation order. -/
structure Message where
  id : Nat
  chatId : Nat
  senderId : UserId
  text : String
  status : MsgStatus
  readBy : List UserId
  createdAt : Nat
deriving DecidableEq, Repr

/-- Observable socket.io side effects emitted by the handlers.  A `room`
argument stands for `io.to(roomId).emit`, a `toSocket` argument for a
direct `socket.emit`; `excludeSocket` models `socket.to(room).emit`. -/
inductive Effect where
  | userStatus (userId : UserId) (isOnline : Bool)
  | chatJoined (toSocket : SocketId) (chatId : Nat)
  | chatHistory (toSocket : SocketId) (msgs : List Message)
  | receiveMessage (room : Nat) (msg : Message)
  | messageDelivered (room : Nat) (messageId : Nat)
  | messageRead (room : Nat) (messageId : Nat) (userId : UserId)
  | userTyping (room : Nat) (excludeSocket : SocketId) (userId : UserId)
  | userStoppedTyping (room : Nat) (excludeSocket : SocketId) (userId : UserId)
  | errorEvent (toSocket : SocketId) (message : String)
  | messageError (toSocket : SocketId) (message : String)
deriving DecidableEq, Repr

/-- Whole-server state: the two MongoDB collections, the module-level
`onlineUsers` map, the per-socket `socket.userId` bindings, the set of
live sockets, and socket.io room membership.  `nextChatId`/`nextMsgId`
model ObjectId generation, `now` the `timestamps` clock. -/
structure ServerState where
  chats : List Chat
  messages : List Message
  onlineUsers : List (UserId × SocketId)
  socketUserId : List (SocketId × UserId)
  liveSockets : List SocketId
  rooms : List (SocketId × Nat)
  nextChatId : Nat
  nextMsgId : Nat
  now : Nat
deriving DecidableEq, Repr

/-- The state of a freshly started server process. -/
def initState : ServerState :=
  { chats := [], messages := [], onlineUsers := [], socketUserId := [],
    liveSockets := [], rooms := [], nextChatId := 0, nextMsgId := 0, now := 0 }

/-! ### Query helpers mirroring the mongoose calls -/

/-- JavaScript whitespace characters recognised by `String.prototype.trim`. -/
def isJsWs (c : Char) : Bool :=
  c = ' ' || c = '\t' || c = '\n' || c = '\r' || c = '\x0b' || c = '\x0c'

/-- Model of `text.trim()`: strip leading and trailing whitespace. -/
def jsTrim (s : String) : String :=
  ⟨(((s.data.dropWhile isJsWs).reverse.dropWhile isJsWs).reverse)⟩

/-- Query `ChatModel.findOne` with `participants: $all [a, b]`: the first chat
(in natural collection order) whose participants contain both ids. -/
def findChatByPair (st : ServerState) (a b : UserId) : Option Chat :=
  st.chats.find? (fun c => c.participants.contains a && c.participants.contains b)

/-- Query `ChatModel.findById(chatId)`. -/
def findChatById (st : ServerState) (cid : Nat) : Option Chat :=
  st.chats.find? (fun c => c.id == cid)

/-- Query `MessageModel.findById(messageId)`. -/
def findMsg (st : ServerState) (mid : Nat) : Option Message :=
  st.messages.find? (fun m => m.id == mid)

/-- Call `ChatModel.create` with `participants: [senderId, receiverId]`. -/
def createChat (senderId receiverId : UserId) (st : ServerState) : ServerState × Chat :=
  let c : Chat := { id := st.nextChatId, participants := [senderId, receiverId] }
  ({ st with chats := st.chats ++ [c], nextChatId := st.nextChatId + 1 }, c)

/-- All messages of one chat: `MessageModel.find({ chatId: chat._id })`. -/
def chatMessages (st : ServerState) (cid : Nat) : List Message :=
  st.messages.filter (fun m => m.chatId == cid)

/-- Ascending `createdAt` order used by `.sort({ createdAt: 1 })`. -/
def createdLE (a b : Message) : Prop := a.createdAt ≤ b.createdAt

instance : DecidableRel createdLE := fun a b => Nat.decLe a.createdAt b.createdAt

instance : IsTotal Message createdLE := ⟨fun a b => Nat.le_total a.createdAt b.createdAt⟩

instance : IsTrans Message createdLE := ⟨fun _ _ _ => Nat.le_trans⟩

/-- The `chat_history` query:
`MessageModel.find({ chatId }).sort({ createdAt: 1 }).limit(50)` —
filter by chat, sort ascending by `createdAt`, keep the first 50. -/
def chatHistoryQuery (st : ServerState) (cid : Nat) : List Message :=
  (List.insertionSort createdLE (chatMessages st cid)).take 50

/-- Model of `socket.join(roomId)`: idempotent room subscription. -/
def joinRoom (sock : SocketId) (room : Nat) (st : ServerState) : ServerState :=
  if (sock, room) ∈ st.rooms then st else { st with rooms := st.rooms ++ [(sock, room)] }

/-! ### Event handlers -/

/-- The `user_online` handler: `onlineUsers.set(userId, socket.id)`,
`socket.userId = userId`, `io.emit("user_status", {userId, status: "online"})`. -/
def user_online (userId : UserId) (sock : SocketId) (st : ServerState) :
    ServerState × List Effect :=
  ({ st with onlineUsers := mapSet userId sock st.onlineUsers,
             socketUserId := mapSet sock userId st.socketUserId },
   [Effect.userStatus userId true])

/-- First awaited step of the `join_chat` handler: the `ChatModel.findOne` lookup.
Each `await` is a suspension point, so concurrent handler runs may interleave
between this read and the conditional create below. -/
def joinChatResolvePhase (st : ServerState) (senderId receiverId : UserId) : Option Chat :=
  findChatByPair st senderId receiverId

/-- Second step of the `join_chat` handler: `if (!chat) chat = await ChatModel.create(...)`. -/
def joinChatCreatePhase (st : ServerState) (senderId receiverId : UserId)
    (found : Option Chat) : ServerState × Chat :=
  match found with
  | some c => (st, c)
  | none => createChat senderId receiverId st

/-- The `join_chat` handler: resolve-or-create the pair's chat, join the sender's
socket to the room, emit `chat_joined` and `chat_history` to the sender, and,
when the receiver is online with a live socket, auto-join that socket and
send it the same two events. -/
def join_chat (senderId receiverId : UserId) (sock : SocketId) (st : ServerState) :
    ServerState × List Effect :=
  let found := joinChatResolvePhase st senderId receiverId
  let res := joinChatCreatePhase st senderId receiverId found
  let chatId := res.2.id
  let st₂ := joinRoom sock chatId res.1
  let messages := chatHistoryQuery st₂ chatId
  let effs := [Effect.chatJoined sock chatId, Effect.chatHistory sock messages]
  match mapGet receiverId st₂.onlineUsers with
  | some rsock =>
      if rsock ∈ st₂.liveSockets then
        (joinRoom rsock chatId st₂,
         effs ++ [Effect.chatJoined rsock chatId, Effect.chatHistory rsock messages])
      else (st₂, effs)
  | none => (st₂, effs)

/-- The `accept_chat` handler: join the given room and send its history. -/
def accept_chat (chatId : Nat) (sock : SocketId) (st : ServerState) :
    ServerState × List Effect :=
  (joinRoom sock chatId st, [Effect.chatHistory sock (chatHistoryQuery st chatId)])

/-- Chat resolution inside `send_message`: `findById` when a `chatId` was sent,
otherwise `findOne` on the pair; in either case fall back to `ChatModel.create`. -/
def resolveChatForSend (senderId receiverId : UserId) (chatId : Option Nat)
    (st : ServerState) : ServerState × Chat :=
  let found := match chatId with
    | some cid => findChatById st cid
    | none => findChatByPair st senderId receiverId
  match found with
  | some c => (st, c)
  | none => createChat senderId receiverId st

/-- Steps of `send_message` after chat resolution: join sender (and online
receiver) to the room, `MessageModel.create` with status `sent` and
`readBy = [senderId]`, update `chat.lastMessage`, broadcast `receive_message`
to the room, and — when `onlineUsers` holds an entry for the receiver —
`findByIdAndUpdate` the status to `delivered` and broadcast
`message_delivered`; finally emit `user_stopped_typing`. -/
def sendCore (senderId receiverId : UserId) (text : String) (sock : SocketId)
    (st : ServerState) (chat : Chat) : ServerState × List Effect :=
  let roomId := chat.id
  let st₂ := joinRoom sock roomId st
  let receiverSocketId := mapGet receiverId st₂.onlineUsers
  let st₃ := match receiverSocketId with
    | some rs => if rs ∈ st₂.liveSockets then joinRoom rs roomId st₂ else st₂
    | none => st₂
  let newMessage : Message :=
    { id := st₃.nextMsgId, chatId := roomId, senderId := senderId,
      text := jsTrim text, status := .sent, readBy := [senderId], createdAt := st₃.now }
  let chats' := updateFirst (fun c => c.id == roomId)
    (fun c => { c with lastMessage := some newMessage.id }) st₃.chats
  let st₄ := { st₃ with
    messages := st₃.messages ++ [newMessage],
    nextMsgId := st₃.nextMsgId + 1,
    now := st₃.now + 1,
    chats := chats' }
  match receiverSocketId with
  | some _ =>
      let delivered := updateFirst (fun m => m.id == newMessage.id)
        (fun m => { m with status := .delivered }) st₄.messages
      ({ st₄ with messages := delivered },
       [Effect.receiveMessage roomId newMessage,
        Effect.messageDelivered roomId newMessage.id,
        Effect.userStoppedTyping roomId sock senderId])
  | none =>
      (st₄,
       [Effect.receiveMessage roomId newMessage,
        Effect.userStoppedTyping roomId sock senderId])

/-- The `send_message` handler: `if (!text?.trim()) return;` then resolve the chat
and run the delivery steps. -/
def send_message (senderId receiverId : UserId) (text : String) (chatId : Option Nat)
    (sock : SocketId) (st : ServerState) : ServerState × List Effect :=
  if jsTrim text = "" then (st, [])
  else
    let res := resolveChatForSend senderId receiverId chatId st
    sendCore senderId receiverId text sock res.1 res.2

/-- The `typing` handler: broadcast `user_typing` to the room, sender excluded. -/
def typing (chatId : Nat) (userId : UserId) (sock : SocketId) (st : ServerState) :
    ServerState × List Effect :=
  (st, [Effect.userTyping chatId sock userId])

/-- The `stop_typing` handler: broadcast `user_stopped_typing`, sender excluded. -/
def stop_typing (chatId : Nat) (userId : UserId) (sock : SocketId) (st : ServerState) :
    ServerState × List Effect :=
  (st, [Effect.userStoppedTyping chatId sock userId])

/-- The `mark_as_read` handler: `findById`; when the message exists and `userId`
is not yet in `readBy`, push it, set status to `read`, save, and broadcast
`message_read` to the owning chat's room; otherwise do nothing. -/
def mark_as_read (messageId : Nat) (userId : UserId) (st : ServerState) :
    ServerState × List Effect :=
  match findMsg st messageId with
  | none => (st, [])
  | some m =>
      if userId ∈ m.readBy then (st, [])
      else
        let msgs' := updateFirst (fun mm => mm.id == messageId)
          (fun mm => { mm with readBy := mm.readBy ++ [userId], status := .read })
          st.messages
        ({ st with messages := msgs' },
         [Effect.messageRead m.chatId messageId userId])

/-- The `disconnect` handler: when the socket carries a `userId` binding,
`onlineUsers.delete(socket.userId)` and broadcast
`user_status {status: "offline"}`; the socket itself always dies. -/
def disconnect (sock : SocketId) (st : ServerState) : ServerState × List Effect :=
  match mapGet sock st.socketUserId with
  | some u =>
      ({ st with onlineUsers := mapDelete u st.onlineUsers,
                 socketUserId := mapDelete sock st.socketUserId,
                 liveSockets := st.liveSockets.erase sock,
                 rooms := st.rooms.filter (fun p => !(decide (p.1 = sock))) },
       [Effect.userStatus u false])
  | none =>
      ({ st with socketUserId := mapDelete sock st.socketUserId,
                 liveSockets := st.liveSockets.erase sock,
                 rooms := st.rooms.filter (fun p => !(decide (p.1 = sock))) },
       [])

/-! ### The operation alphabet and interpreter -/

/-- One inbound client event, as dispatched by `io.on("connection", ...)`. -/
inductive ServerOp where
  | user_online (userId : UserId) (sock : SocketId)
  | join_chat (senderId receiverId : UserId) (sock : SocketId)
  | accept_chat (chatId : Nat) (sock : SocketId)
  | send_message (senderId receiverId : UserId) (text : String) (chatId : Option Nat)
      (sock : SocketId)
  | typing (chatId : Nat) (userId : UserId) (sock : SocketId)
  | stop_typing (chatId : Nat) (userId : UserId) (sock : SocketId)
  | mark_as_read (messageId : Nat) (userId : UserId)
  | disconnect (sock : SocketId)
deriving DecidableEq, Repr

/-- Dispatch one event to its handler. -/
def applyOp (op : ServerOp) (st : ServerState) : ServerState × List Effect :=
  match op with
  | .user_online u s => user_online u s st
  | .join_chat a b s => join_chat a b s st
  | .accept_chat c s => accept_chat c s st
  | .send_message a b t c s => send_message a b t c s st
  | .typing c u s => typing c u s st
  | .stop_typing c u s => stop_typing c u s st
  | .mark_as_read m u => mark_as_read m u st
  | .disconnect s => disconnect s st

/-- Run a sequence of events from the fresh-server state. -/
def run (ops : List ServerOp) : ServerState :=
  ops.foldl (fun st op => (applyOp op st).1) initState

/-- Message ids held in the store are below the id generator — true of every
reachable state (MongoDB ObjectIds never collide with a fresh one). -/
def MsgWF (st : ServerState) : Prop :=
  ∀ m ∈ st.messages, m.id < st.nextMsgId

/-- Chat ids held in the store are below the id generator. -/
def ChatWF (st : ServerState) : Prop :=
  ∀ c ∈ st.chats, c.id < st.nextChatId

instance (st : ServerState) : Decidable (MsgWF st) :=
  List.decidableBAll _ st.messages

instance (st : ServerState) : Decidable (ChatWF st) :=
  List.decidableBAll _ st.chats

/-- Rank of a delivery status along `sent → delivered → read`. -/
def statusRank : MsgStatus → Nat
  | .sent => 0
  | .delivered => 1
  | .read => 2

/-- Compact constructor for message documents, used in concrete scenarios. -/
def mkMsg (i cid : Nat) (s : UserId) (t : String) (stt : MsgStatus)
    (rb : List UserId) (ca : Nat) : Message :=
  { id := i, chatId := cid, senderId := s, text := t, status := stt,
    readBy := rb, createdAt := ca }


/-- The message document `MessageModel.create` builds inside `send_message`. -/
def freshMsg (st : ServerState) (senderId : UserId) (text : String) (chat : Chat) : Message :=
  { id := st.nextMsgId, chatId := chat.id, senderId := senderId,
    text := jsTrim text, status := .sent, readBy := [senderId], createdAt := st.now }

/-- Scenario state for the C5 witness: user "B" is online on live socket 7. -/
def stC5 : ServerState :=
  { initState with onlineUsers := [("B", 7)], liveSockets := [7] }

/-- Scenario state for C3: one existing chat between "A" and "B". -/
def stC3 : ServerState :=
  { initState with chats := [Chat.mk 0 ["A", "B"] none], nextChatId := 1 }

/-- Scenario state for C6/C10: chat 0 between "A" and "B" holding one
message sent by "A". -/
def stC10 : ServerState :=
  { initState with
    chats := [Chat.mk 0 ["A", "B"] (some 0)],
    messages := [mkMsg 0 0 "A" "hi" .sent ["A"] 0],
    nextChatId := 1, nextMsgId := 1, now := 1 }

/-- Scenario state for C9: identity "U" announced on socket 1 and then on
socket 2 (both still live), so the registry maps "U" to socket 2 while both
sockets carry the "U" binding. -/
def stC9 : ServerState :=
  { initState with
    onlineUsers := [("U", 2)],
    socketUserId := [(1, "U"), (2, "U")],
    liveSockets := [1, 2] }

/-- Scenario state for C2: chat 0 between "A" and "B" holding 51 messages
with strictly increasing creation times. -/
def stC2 : ServerState :=
  { initState with
    chats := [Chat.mk 0 ["A", "B"] (some 50)],
    messages := (List.range 51).map (fun i => mkMsg i 0 "A" "m" .sent ["A"] i),
    nextChatId := 1, nextMsgId := 51, now := 51 }

/-! ### Theorems: generic lemmas about the list/map helpers -/

theorem mapGet_mapDelete_self {κ ν : Type} [DecidableEq κ] (k : κ) (l : List (κ × ν)) :
    mapGet k (mapDelete k l) = none := by
  induction l with
  | nil => rfl
  | cons p rest ih =>
      by_cases h : p.1 = k
      · simpa [mapDelete, List.filter, h] using ih
      · simp only [mapDelete, List.filter] at ih ⊢
        simp [h, mapGet, Ne.symm h, ih]

theorem find?_append_of_some {α : Type} {p : α → Bool} {l₁ : List α} {a : α}
    (h : l₁.find? p = some a) (l₂ : List α) : (l₁ ++ l₂).find? p = some a := by
  induction l₁ with
  | nil => simp [List.find?] at h
  | cons x xs ih =>
      by_cases hx : p x
      · simp_all [List.find?, hx]
      · simp only [List.find?_cons_of_neg _ hx] at h
        simpa [List.find?_cons_of_neg _ hx] using ih h

theorem find?_append_of_none {α : Type} {p : α → Bool} {l₁ : List α}
    (h : l₁.find? p = none) (l₂ : List α) : (l₁ ++ l₂).find? p = l₂.find? p := by
  induction l₁ with
  | nil => simp
  | cons x xs ih =>
      by_cases hx : p x
      · simp [List.find?_cons_of_pos _ hx] at h
      · simp only [List.find?_cons_of_neg _ hx] at h
        simpa [List.find?_cons_of_neg _ hx] using ih h

theorem updateFirst_of_none {α : Type} {q : α → Bool} {f : α → α} {l : List α}
    (h : l.find? q = none) : updateFirst q f l = l := by
  induction l with
  | nil => rfl
  | cons x xs ih =>
      by_cases hx : q x
      · simp [List.find?_cons_of_pos _ hx] at h
      · simp only [List.find?_cons_of_neg _ hx] at h
        simp [updateFirst, hx, ih h]

theorem find?_updateFirst_self {α : Type} {p : α → Bool} {f : α → α} {l : List α} {a : α}
    (h : l.find? p = some a) (hf : p (f a) = true) :
    (updateFirst p f l).find? p = some (f a) := by
  induction l with
  | nil => simp [List.find?] at h
  | cons x xs ih =>
      by_cases hx : p x
      · simp only [List.find?_cons_of_pos _ hx, Option.some.injEq] at h
        subst h
        simp [updateFirst, hx, List.find?_cons_of_pos _ hf]
      · simp only [List.find?_cons_of_neg _ hx] at h
        simp [updateFirst, hx, List.find?_cons_of_neg _ hx, ih h]

theorem find?_updateFirst_disjoint {α : Type} {p q : α → Bool} {f : α → α} {l : List α}
    (hq : ∀ x, q x = true → p x = false) (hqf : ∀ x, q x = true → p (f x) = false) :
    (updateFirst q f l).find? p = l.find? p := by
  induction l with
  | nil => rfl
  | cons x xs ih =>
      by_cases hx : q x
      · have h1 : p x = false := hq x hx
        have h2 : p (f x) = false := hqf x hx
        simp [updateFirst, hx, List.find?_cons_of_neg, h1, h2]
      · by_cases hp : p x
        · simp [updateFirst, hx, List.find?_cons_of_pos _ hp]
        · simp [updateFirst, hx, List.find?_cons_of_neg _ hp, ih]

theorem mem_updateFirst {α : Type} {q : α → Bool} {f : α → α} {l : List α} {x : α}
    (h : x ∈ updateFirst q f l) : x ∈ l ∨ ∃ y ∈ l, x = f y := by
  induction l with
  | nil => simp [updateFirst] at h
  | cons z zs ih =>
      by_cases hz : q z
      · simp only [updateFirst, hz, if_pos, List.mem_cons] at h
        rcases h with h | h
        · exact Or.inr ⟨z, List.mem_cons_self .., h⟩
        · exact Or.inl (List.mem_cons_of_mem _ h)
      · simp only [updateFirst, hz, if_neg, Bool.false_eq_true, not_false_iff,
          List.mem_cons] at h
        rcases h with h | h
        · exact Or.inl (h ▸ List.mem_cons_self ..)
        · rcases ih h with h' | ⟨y, hy, hxy⟩
          · exact Or.inl (List.mem_cons_of_mem _ h')
          · exact Or.inr ⟨y, List.mem_cons_of_mem _ hy, hxy⟩

/-! ### Frame lemmas: which fields each storage/room helper leaves alone -/

@[simp] theorem joinRoom_messages (sock room : Nat) (st : ServerState) :
    (joinRoom sock room st).messages = st.messages := by
  unfold joinRoom; split <;> rfl

@[simp] theorem joinRoom_onlineUsers (sock room : Nat) (st : ServerState) :
    (joinRoom sock room st).onlineUsers = st.onlineUsers := by
  unfold joinRoom; split <;> rfl

@[simp] theorem joinRoom_nextMsgId (sock room : Nat) (st : ServerState) :
    (joinRoom sock room st).nextMsgId = st.nextMsgId := by
  unfold joinRoom; split <;> rfl

@[simp] theorem joinRoom_now (sock room : Nat) (st : ServerState) :
    (joinRoom sock room st).now = st.now := by
  unfold joinRoom; split <;> rfl

@[simp] theorem joinRoom_liveSockets (sock room : Nat) (st : ServerState) :
    (joinRoom sock room st).liveSockets = st.liveSockets := by
  unfold joinRoom; split <;> rfl

@[simp] theorem joinRoom_chats (sock room : Nat) (st : ServerState) :
    (joinRoom sock room st).chats = st.chats := by
  unfold joinRoom; split <;> rfl

@[simp] theorem joinRoom_nextChatId (sock room : Nat) (st : ServerState) :
    (joinRoom sock room st).nextChatId = st.nextChatId := by
  unfold joinRoom; split <;> rfl

@[simp] theorem createChat_messages (a b : UserId) (st : ServerState) :
    (createChat a b st).1.messages = st.messages := rfl

@[simp] theorem createChat_nextMsgId (a b : UserId) (st : ServerState) :
    (createChat a b st).1.nextMsgId = st.nextMsgId := rfl

@[simp] theorem createChat_onlineUsers (a b : UserId) (st : ServerState) :
    (createChat a b st).1.onlineUsers = st.onlineUsers := rfl

@[simp] theorem createChat_now (a b : UserId) (st : ServerState) :
    (createChat a b st).1.now = st.now := rfl

@[simp] theorem createChat_liveSockets (a b : UserId) (st : ServerState) :
    (createChat a b st).1.liveSockets = st.liveSockets := rfl

@[simp] theorem createChat_chats (a b : UserId) (st : ServerState) :
    (createChat a b st).1.chats =
      st.chats ++ [{ id := st.nextChatId, participants := [a, b] }] := rfl

@[simp] theorem createChat_snd (a b : UserId) (st : ServerState) :
    (createChat a b st).2 = { id := st.nextChatId, participants := [a, b] } := rfl

/-- A freshly generated message id is found exactly at the appended document. -/
theorem findMsg_fresh {st : ServerState} (hWF : MsgWF st) {nm : Message}
    (hid : nm.id = st.nextMsgId) :
    (st.messages ++ [nm]).find? (fun m => m.id == st.nextMsgId) = some nm := by
  have hnone : st.messages.find? (fun m => m.id == st.nextMsgId) = none := by
    rw [List.find?_eq_none]
    intro x hx
    simpa using Nat.ne_of_lt (hWF x hx)
  rw [find?_append_of_none hnone]
  simp [List.find?, hid]

theorem sendCore_messages_none {receiverId : UserId} {st : ServerState}
    (h : mapGet receiverId st.onlineUsers = none)
    (senderId : UserId) (text : String) (sock : SocketId) (chat : Chat) :
    (sendCore senderId receiverId text sock st chat).1.messages =
      st.messages ++ [freshMsg st senderId text chat] := by
  unfold sendCore freshMsg
  simp only [joinRoom_onlineUsers, h, joinRoom_messages, joinRoom_nextMsgId, joinRoom_now]

theorem sendCore_effects_none {receiverId : UserId} {st : ServerState}
    (h : mapGet receiverId st.onlineUsers = none)
    (senderId : UserId) (text : String) (sock : SocketId) (chat : Chat) :
    (sendCore senderId receiverId text sock st chat).2 =
      [Effect.receiveMessage chat.id (freshMsg st senderId text chat),
       Effect.userStoppedTyping chat.id sock senderId] := by
  unfold sendCore freshMsg
  simp only [joinRoom_onlineUsers, h, joinRoom_messages, joinRoom_nextMsgId, joinRoom_now]

theorem sendCore_messages_some {receiverId : UserId} {st : ServerState} {rs : SocketId}
    (h : mapGet receiverId st.onlineUsers = some rs)
    (senderId : UserId) (text : String) (sock : SocketId) (chat : Chat) :
    (sendCore senderId receiverId text sock st chat).1.messages =
      updateFirst (fun m => m.id == st.nextMsgId) (fun m => { m with status := .delivered })
        (st.messages ++ [freshMsg st senderId text chat]) := by
  unfold sendCore freshMsg
  by_cases hlive : rs ∈ st.liveSockets <;>
    simp only [joinRoom_onlineUsers, h, joinRoom_messages, joinRoom_nextMsgId, joinRoom_now,
      joinRoom_liveSockets, hlive, if_pos, if_neg, not_false_iff]

theorem sendCore_effects_some {receiverId : UserId} {st : ServerState} {rs : SocketId}
    (h : mapGet receiverId st.onlineUsers = some rs)
    (senderId : UserId) (text : String) (sock : SocketId) (chat : Chat) :
    (sendCore senderId receiverId text sock st chat).2 =
      [Effect.receiveMessage chat.id (freshMsg st senderId text chat),
       Effect.messageDelivered chat.id st.nextMsgId,
       Effect.userStoppedTyping chat.id sock senderId] := by
  unfold sendCore freshMsg
  by_cases hlive : rs ∈ st.liveSockets <;>
    simp only [joinRoom_onlineUsers, h, joinRoom_messages, joinRoom_nextMsgId, joinRoom_now,
      joinRoom_liveSockets, hlive, if_pos, if_neg, not_false_iff]

theorem sendCore_chats {receiverId : UserId} {st : ServerState}
    (senderId : UserId) (text : String) (sock : SocketId) (chat : Chat) :
    (sendCore senderId receiverId text sock st chat).1.chats =
      updateFirst (fun c => c.id == chat.id)
        (fun c => { c with lastMessage := some st.nextMsgId }) st.chats := by
  unfold sendCore
  cases h : mapGet receiverId st.onlineUsers with
  | none =>
      simp only [joinRoom_onlineUsers, h, joinRoom_chats, joinRoom_nextMsgId, joinRoom_now]
  | some rs =>
      by_cases hlive : rs ∈ st.liveSockets <;>
        simp only [joinRoom_onlineUsers, h, joinRoom_chats, joinRoom_nextMsgId, joinRoom_now,
          joinRoom_liveSockets, hlive, if_pos, if_neg, not_false_iff]

theorem sendCore_spec (senderId receiverId : UserId) (text : String) (sock : SocketId)
    (st : ServerState) (chat : Chat) (hWF : MsgWF st) :
    ∃ m : Message,
      findMsg (sendCore senderId receiverId text sock st chat).1 st.nextMsgId = some m ∧
      m.id = st.nextMsgId ∧ m.chatId = chat.id ∧ m.senderId = senderId ∧
      m.readBy = [senderId] ∧
      ((mapGet receiverId st.onlineUsers).isSome →
        m.status = .delivered ∧
        Effect.messageDelivered chat.id st.nextMsgId ∈
          (sendCore senderId receiverId text sock st chat).2) ∧
      (mapGet receiverId st.onlineUsers = none →
        m.status = .sent ∧
        ∀ rm i, Effect.messageDelivered rm i ∉
          (sendCore senderId receiverId text sock st chat).2) ∧
      (∀ sk s, Effect.messageError sk s ∉ (sendCore senderId receiverId text sock st chat).2 ∧
        Effect.errorEvent sk s ∉ (sendCore senderId receiverId text sock st chat).2) ∧
      (∃ mm, Effect.receiveMessage chat.id mm ∈
          (sendCore senderId receiverId text sock st chat).2 ∧ mm.senderId = senderId) := by
  cases h : mapGet receiverId st.onlineUsers with
  | none =>
      refine ⟨freshMsg st senderId text chat, ?_, rfl, rfl, rfl, rfl, ?_, ?_, ?_, ?_⟩
      · unfold findMsg
        rw [sendCore_messages_none h]
        exact findMsg_fresh hWF rfl
      · simp [h]
      · intro _
        refine ⟨rfl, ?_⟩
        intro rm i
        rw [sendCore_effects_none h]
        simp
      · intro sk s
        rw [sendCore_effects_none h]
        simp
      · refine ⟨freshMsg st senderId text chat, ?_, rfl⟩
        rw [sendCore_effects_none h]
        simp
  | some rs =>
      refine ⟨{ freshMsg st senderId text chat with status := .delivered },
        ?_, rfl, rfl, rfl, rfl, ?_, ?_, ?_, ?_⟩
      · unfold findMsg
        rw [sendCore_messages_some h]
        have hfind := @findMsg_fresh st hWF (freshMsg st senderId text chat) rfl
        exact find?_updateFirst_self hfind (by simp [freshMsg])
      · intro _
        refine ⟨rfl, ?_⟩
        rw [sendCore_effects_some h]
        simp
      · intro hnone
        simp at hnone
      · intro sk s
        rw [sendCore_effects_some h]
        simp
      · refine ⟨freshMsg st senderId text chat, ?_, rfl⟩
        rw [sendCore_effects_some h]
        simp

theorem resolveChatForSend_found {st : ServerState} {cid : Nat} {c : Chat}
    (h : findChatById st cid = some c) (s r : UserId) :
    resolveChatForSend s r (some cid) st = (st, c) := by
  unfold resolveChatForSend
  simp [h]

theorem resolveChatForSend_notfound {st : ServerState} {cid : Nat}
    (h : findChatById st cid = none) (s r : UserId) :
    resolveChatForSend s r (some cid) st = createChat s r st := by
  unfold resolveChatForSend
  simp [h]

theorem resolveChatForSend_messages (s r : UserId) (cid : Option Nat) (st : ServerState) :
    (resolveChatForSend s r cid st).1.messages = st.messages := by
  unfold resolveChatForSend
  dsimp only
  split <;> simp

theorem resolveChatForSend_nextMsgId (s r : UserId) (cid : Option Nat) (st : ServerState) :
    (resolveChatForSend s r cid st).1.nextMsgId = st.nextMsgId := by
  unfold resolveChatForSend
  dsimp only
  split <;> simp

theorem resolveChatForSend_onlineUsers (s r : UserId) (cid : Option Nat) (st : ServerState) :
    (resolveChatForSend s r cid st).1.onlineUsers = st.onlineUsers := by
  unfold resolveChatForSend
  dsimp only
  split <;> simp

theorem resolveChatForSend_wf {st : ServerState} (hWF : MsgWF st) (s r : UserId)
    (cid : Option Nat) : MsgWF (resolveChatForSend s r cid st).1 := by
  intro m hm
  rw [resolveChatForSend_messages] at hm
  rw [resolveChatForSend_nextMsgId]
  exact hWF m hm

/-- C4: a `send_message` whose text trims to the empty string is a silent
no-op: the state (chats and messages included) is unchanged and no effect —
no broadcast, no error — is emitted. -/
theorem C4_empty_text_noop (senderId receiverId : UserId) (text : String)
    (chatId : Option Nat) (sock : SocketId) (st : ServerState)
    (h : jsTrim text = "") :
    send_message senderId receiverId text chatId sock st = (st, []) := by
  unfold send_message
  rw [if_pos h]

/-- Witness for C4 at a whitespace-only body. -/
theorem C4_empty_text_noop_witness :
    send_message "A" "B" " \n\t " none 0 initState = (initState, []) :=
  C4_empty_text_noop "A" "B" " \n\t " none 0 initState (by decide)

/-- C5: for every successful `send_message`, when the presence registry holds
a connection for the receiver at send time the persisted message's status is
`delivered` and `message_delivered` is broadcast to the chat's room; when the
receiver is offline the status stays `sent` and no `message_delivered` is
emitted. -/
theorem C5_delivery_transition (senderId receiverId : UserId) (text : String)
    (chatId : Option Nat) (sock : SocketId) (st : ServerState)
    (hWF : MsgWF st) (htext : ¬ jsTrim text = "") :
    ∃ m : Message,
      findMsg (send_message senderId receiverId text chatId sock st).1 st.nextMsgId = some m ∧
      ((mapGet receiverId st.onlineUsers).isSome →
        m.status = .delivered ∧
        Effect.messageDelivered m.chatId m.id ∈
          (send_message senderId receiverId text chatId sock st).2) ∧
      (mapGet receiverId st.onlineUsers = none →
        m.status = .sent ∧
        ∀ rm i, Effect.messageDelivered rm i ∉
          (send_message senderId receiverId text chatId sock st).2) := by
  unfold send_message
  rw [if_neg htext]
  have hres := sendCore_spec senderId receiverId text sock
    (resolveChatForSend senderId receiverId chatId st).1
    (resolveChatForSend senderId receiverId chatId st).2
    (resolveChatForSend_wf hWF senderId receiverId chatId)
  rw [resolveChatForSend_nextMsgId, resolveChatForSend_onlineUsers] at hres
  obtain ⟨m, hfind, hid, hchat, _, _, hon, hoff, _, _⟩ := hres
  exact ⟨m, hfind, fun h => ⟨(hon h).1, by rw [hchat, hid]; exact (hon h).2⟩,
    fun h => hoff h⟩

/-- Witness for C5 with the receiver online (registry entry, live socket). -/
theorem C5_delivery_transition_witness :
    ∃ m : Message,
      findMsg (send_message "A" "B" "hi" none 9 stC5).1 stC5.nextMsgId = some m ∧
      ((mapGet "B" stC5.onlineUsers).isSome →
        m.status = .delivered ∧
        Effect.messageDelivered m.chatId m.id ∈ (send_message "A" "B" "hi" none 9 stC5).2) ∧
      (mapGet "B" stC5.onlineUsers = none →
        m.status = .sent ∧
        ∀ rm i, Effect.messageDelivered rm i ∉ (send_message "A" "B" "hi" none 9 stC5).2) :=
  C5_delivery_transition "A" "B" "hi" none 9 stC5 (by decide) (by decide)

/-- A freshly generated chat id is found exactly at the appended document. -/
theorem findChat_fresh {st : ServerState} (hWF : ChatWF st) {c : Chat}
    (hid : c.id = st.nextChatId) :
    (st.chats ++ [c]).find? (fun x => x.id == st.nextChatId) = some c := by
  have hnone : st.chats.find? (fun x => x.id == st.nextChatId) = none := by
    rw [List.find?_eq_none]
    intro x hx
    simpa using Nat.ne_of_lt (hWF x hx)
  rw [find?_append_of_none hnone]
  simp [List.find?, hid]

/-- C3 (amended): a `send_message` carrying an explicit `chatId` loads the
chat by id but performs no participant check: even when `senderId` is not a
participant of the loaded chat, the message is persisted into that chat,
`receive_message` is broadcast to the chat's room, and no error event of any
kind is emitted. -/
theorem C3_no_participant_check (senderId receiverId : UserId) (text : String)
    (cid : Nat) (c : Chat) (sock : SocketId) (st : ServerState)
    (hWF : MsgWF st) (htext : ¬ jsTrim text = "")
    (hfound : findChatById st cid = some c) (_hout : senderId ∉ c.participants) :
    (∃ m, findMsg (send_message senderId receiverId text (some cid) sock st).1
        st.nextMsgId = some m ∧ m.chatId = c.id ∧ m.senderId = senderId) ∧
    (∃ mm, Effect.receiveMessage c.id mm ∈
        (send_message senderId receiverId text (some cid) sock st).2 ∧
      mm.senderId = senderId) ∧
    (∀ sk s, Effect.messageError sk s ∉
        (send_message senderId receiverId text (some cid) sock st).2 ∧
      Effect.errorEvent sk s ∉
        (send_message senderId receiverId text (some cid) sock st).2) := by
  unfold send_message
  rw [if_neg htext, resolveChatForSend_found hfound]
  obtain ⟨m, hfind, hid, hchat, hsender, _, _, _, herr, hrecv⟩ :=
    sendCore_spec senderId receiverId text sock st c hWF
  exact ⟨⟨m, hfind, hchat, hsender⟩, hrecv, herr⟩

/-- Witness for C3: sender "C" is not a participant of chat 0 of `stC3`,
yet the send persists the message and broadcasts it. -/
theorem C3_no_participant_check_witness :
    (∃ m, findMsg (send_message "C" "B" "hi" (some 0) 0 stC3).1
        stC3.nextMsgId = some m ∧ m.chatId = (Chat.mk 0 ["A", "B"] none).id ∧
      m.senderId = "C") ∧
    (∃ mm, Effect.receiveMessage (Chat.mk 0 ["A", "B"] none).id mm ∈
        (send_message "C" "B" "hi" (some 0) 0 stC3).2 ∧ mm.senderId = "C") ∧
    (∀ sk s, Effect.messageError sk s ∉ (send_message "C" "B" "hi" (some 0) 0 stC3).2 ∧
      Effect.errorEvent sk s ∉ (send_message "C" "B" "hi" (some 0) 0 stC3).2) :=
  C3_no_participant_check "C" "B" "hi" 0 (Chat.mk 0 ["A", "B"] none) 0 stC3
    (by decide) (by decide) (by decide) (by decide)

/-- Counterexample for C3 as stated: sender "C" is outside chat 0's
participants, still the code persists the message and broadcasts
`receive_message`; no error reaches anyone. -/
theorem C3_counterexample :
    "C" ∉ (Chat.mk 0 ["A", "B"] none).participants ∧
    findChatById stC3 0 = some (Chat.mk 0 ["A", "B"] none) ∧
    findMsg (send_message "C" "B" "hi" (some 0) 0 stC3).1 0 =
      some (mkMsg 0 0 "C" "hi" .sent ["C"] 0) ∧
    (send_message "C" "B" "hi" (some 0) 0 stC3).2 =
      [Effect.receiveMessage 0 (mkMsg 0 0 "C" "hi" .sent ["C"] 0),
       Effect.userStoppedTyping 0 0 "C"] := by
  decide

/-- C8 (amended): a `send_message` whose explicit `chatId` matches no stored
chat surfaces no error at all: the handler silently creates a brand-new chat
for `(senderId, receiverId)` and persists the message there; `mark_as_read`
on a missing message stays a benign no-op. -/
theorem C8_dangling_chatId_silent (senderId receiverId : UserId) (text : String)
    (cid : Nat) (sock : SocketId) (st : ServerState)
    (hWF : MsgWF st) (hcWF : ChatWF st) (htext : ¬ jsTrim text = "")
    (hmissing : findChatById st cid = none) :
    (∃ c, findChatById (send_message senderId receiverId text (some cid) sock st).1
        st.nextChatId = some c ∧ c.participants = [senderId, receiverId]) ∧
    (∃ m, findMsg (send_message senderId receiverId text (some cid) sock st).1
        st.nextMsgId = some m ∧ m.chatId = st.nextChatId) ∧
    (∀ sk s, Effect.messageError sk s ∉
        (send_message senderId receiverId text (some cid) sock st).2 ∧
      Effect.errorEvent sk s ∉
        (send_message senderId receiverId text (some cid) sock st).2) ∧
    (∀ st' mid u, findMsg st' mid = none → mark_as_read mid u st' = (st', [])) := by
  unfold send_message
  rw [if_neg htext, resolveChatForSend_notfound hmissing]
  have hWF1 : MsgWF (createChat senderId receiverId st).1 := by
    intro m hm
    rw [createChat_messages] at hm
    rw [createChat_nextMsgId]
    exact hWF m hm
  obtain ⟨m, hfind, hid, hchat, _, _, _, _, herr, _⟩ :=
    sendCore_spec senderId receiverId text sock (createChat senderId receiverId st).1
      (createChat senderId receiverId st).2 hWF1
  rw [createChat_nextMsgId] at hfind
  refine ⟨?_, ⟨m, hfind, by simpa using hchat⟩, herr, ?_⟩
  · refine ⟨Chat.mk st.nextChatId [senderId, receiverId] (some st.nextMsgId), ?_, rfl⟩
    unfold findChatById
    rw [sendCore_chats, createChat_chats, createChat_nextMsgId]
    have hfound := findChat_fresh hcWF (c := Chat.mk st.nextChatId [senderId, receiverId] none) rfl
    have := find?_updateFirst_self (f := fun c =>
      { c with lastMessage := some st.nextMsgId }) hfound (by simp)
    simpa using this
  · intro st' mid u hnone
    unfold mark_as_read
    rw [hnone]

/-- Witness for C8: chat id 99 does not exist in the fresh state. -/
theorem C8_dangling_chatId_silent_witness :
    (∃ c, findChatById (send_message "A" "B" "hi" (some 99) 0 initState).1
        initState.nextChatId = some c ∧ c.participants = ["A", "B"]) ∧
    (∃ m, findMsg (send_message "A" "B" "hi" (some 99) 0 initState).1
        initState.nextMsgId = some m ∧ m.chatId = initState.nextChatId) ∧
    (∀ sk s, Effect.messageError sk s ∉ (send_message "A" "B" "hi" (some 99) 0 initState).2 ∧
      Effect.errorEvent sk s ∉ (send_message "A" "B" "hi" (some 99) 0 initState).2) ∧
    (∀ st' mid u, findMsg st' mid = none → mark_as_read mid u st' = (st', [])) :=
  C8_dangling_chatId_silent "A" "B" "hi" 99 0 initState
    (by decide) (by decide) (by decide) (by decide)

/-- Counterexample for C8 as stated: `send_message` to vanished chat 99
emits no error event — it silently creates chat 0 and persists message 0. -/
theorem C8_counterexample :
    findChatById initState 99 = none ∧
    (send_message "A" "B" "hi" (some 99) 0 initState).2 =
      [Effect.receiveMessage 0 (mkMsg 0 0 "A" "hi" .sent ["A"] 0),
       Effect.userStoppedTyping 0 0 "A"] ∧
    findChatById (send_message "A" "B" "hi" (some 99) 0 initState).1 0 =
      some (Chat.mk 0 ["A", "B"] (some 0)) ∧
    findMsg (send_message "A" "B" "hi" (some 99) 0 initState).1 0 =
      some (mkMsg 0 0 "A" "hi" .sent ["A"] 0) := by
  decide

/-- Running `mark_as_read` on an existing message with a new reader: the stored
document gains the reader and the `read` status, and `message_read` is
broadcast to the owning chat's room. -/
theorem markRead_new_spec (st : ServerState) (mid : Nat) (u : UserId) (m : Message)
    (hfind : findMsg st mid = some m) (hnew : u ∉ m.readBy) :
    findMsg (mark_as_read mid u st).1 mid =
      some { m with readBy := m.readBy ++ [u], status := .read } ∧
    (mark_as_read mid u st).2 = [Effect.messageRead m.chatId mid u] := by
  have hfind2 : st.messages.find? (fun mm => mm.id == mid) = some m := hfind
  have hp : (m.id == mid) = true := by simpa using List.find?_some hfind2
  unfold mark_as_read
  simp only [hfind]
  rw [if_neg hnew]
  refine ⟨?_, rfl⟩
  exact find?_updateFirst_self (f := fun mm : Message =>
    { mm with readBy := mm.readBy ++ [u], status := .read }) hfind2 (by simpa using hp)

/-- C10: `mark_as_read` for an existing message and a reader not yet in
`readBy` appends the reader, sets the status to `read`, and broadcasts
`message_read` to the owning chat's room — there is no hypothesis (and in
the handler no check) that the reader is a participant of the owning chat. -/
theorem C10_markRead_no_auth (st : ServerState) (mid : Nat) (u : UserId) (m : Message)
    (hfind : findMsg st mid = some m) (hnew : u ∉ m.readBy) :
    findMsg (mark_as_read mid u st).1 mid =
      some { m with readBy := m.readBy ++ [u], status := .read } ∧
    (mark_as_read mid u st).2 = [Effect.messageRead m.chatId mid u] :=
  markRead_new_spec st mid u m hfind hnew

/-- Witness for C10: reader "C" is not a participant of the message's chat,
and `mark_as_read` still records and broadcasts the read receipt. -/
theorem C10_markRead_no_auth_witness :
    "C" ∉ (Chat.mk 0 ["A", "B"] none).participants ∧
    findMsg (mark_as_read 0 "C" stC10).1 0 =
      some { mkMsg 0 0 "A" "hi" .sent ["A"] 0 with readBy := ["A"] ++ ["C"], status := .read } ∧
    (mark_as_read 0 "C" stC10).2 = [Effect.messageRead 0 0 "C"] :=
  ⟨by decide, C10_markRead_no_auth stC10 0 "C" (mkMsg 0 0 "A" "hi" .sent ["A"] 0)
    (by decide) (by decide)⟩

/-- C6: `mark_as_read` is idempotent — when the reader is already in
`readBy` nothing changes and nothing is broadcast, and a second identical
call right after a first one is always a complete no-op (so readBy keeps
its value after the first call). -/
theorem C6_markRead_idempotent (st : ServerState) (mid : Nat) (u : UserId) :
    (∀ m, findMsg st mid = some m → u ∈ m.readBy → mark_as_read mid u st = (st, [])) ∧
    mark_as_read mid u (mark_as_read mid u st).1 = ((mark_as_read mid u st).1, []) := by
  have hpresent : ∀ m, findMsg st mid = some m → u ∈ m.readBy →
      mark_as_read mid u st = (st, []) := by
    intro m hfind hmem
    unfold mark_as_read
    simp only [hfind]
    rw [if_pos hmem]
  refine ⟨hpresent, ?_⟩
  cases hfind : findMsg st mid with
  | none =>
      have hfix : mark_as_read mid u st = (st, []) := by
        unfold mark_as_read
        simp only [hfind]
      rw [hfix]
      show mark_as_read mid u st = (st, [])
      exact hfix
  | some m =>
      by_cases hmem : u ∈ m.readBy
      · rw [hpresent m hfind hmem]
        show mark_as_read mid u st = (st, [])
        exact hpresent m hfind hmem
      · obtain ⟨hfind', _⟩ := markRead_new_spec st mid u m hfind hmem
        set st₁ := (mark_as_read mid u st).1 with hst1
        unfold mark_as_read
        simp only [hfind']
        rw [if_pos (by simp)]

/-- Witness for C6: marking the same reader twice on a concrete message. -/
theorem C6_markRead_idempotent_witness :
    mark_as_read 0 "A" stC10 = (stC10, []) ∧
    mark_as_read 0 "B" (mark_as_read 0 "B" stC10).1 = ((mark_as_read 0 "B" stC10).1, []) :=
  ⟨(C6_markRead_idempotent stC10 0 "A").1 (mkMsg 0 0 "A" "hi" .sent ["A"] 0)
      (by decide) (by decide),
    (C6_markRead_idempotent stC10 0 "B").2⟩

/-- C9 (amended): disconnecting a socket with a bound identity
*unconditionally* deletes that identity's entry from the presence registry
and broadcasts `user_status {status: offline}` to everyone — whether or not
other live connections remain bound to the same identity. -/
theorem C9_disconnect_unconditional (st : ServerState) (sock : SocketId) (u : UserId)
    (hbound : mapGet sock st.socketUserId = some u) :
    mapGet u (disconnect sock st).1.onlineUsers = none ∧
    Effect.userStatus u false ∈ (disconnect sock st).2 := by
  unfold disconnect
  simp only [hbound]
  exact ⟨mapGet_mapDelete_self u st.onlineUsers, by simp⟩

/-- Witness for C9: socket 1 is bound to "U" in `stC9`; after its disconnect
the registry no longer knows "U" and the offline broadcast went out. -/
theorem C9_disconnect_unconditional_witness :
    mapGet "U" (disconnect 1 stC9).1.onlineUsers = none ∧
    Effect.userStatus "U" false ∈ (disconnect 1 stC9).2 :=
  C9_disconnect_unconditional stC9 1 "U" (by decide)

/-- Counterexample for C9 as stated: in `stC9` identity "U" has two live
sockets (1 and 2) and the registry points at socket 2; when the *other*
socket 1 disconnects, the handler still deletes "U" from the registry and
broadcasts offline, although a live connection bound to "U" remains. -/
theorem C9_counterexample :
    (1 ∈ stC9.liveSockets ∧ 2 ∈ stC9.liveSockets ∧
      mapGet 1 stC9.socketUserId = some "U" ∧ mapGet 2 stC9.socketUserId = some "U") ∧
    mapGet "U" (disconnect 1 stC9).1.onlineUsers = none ∧
    (disconnect 1 stC9).2 = [Effect.userStatus "U" false] ∧
    2 ∈ (disconnect 1 stC9).1.liveSockets ∧
    mapGet 2 (disconnect 1 stC9).1.socketUserId = some "U" := by
  decide

/-- C1: the `join_chat` resolve-or-create is two separate awaited storage
calls, so two concurrent requests for the same fresh pair can both observe
`findOne = null` before either create runs; the interleaving
find, find, create, create then persists two distinct Chats for the
unordered pair ("A", "B"), violating the at-most-one-chat invariant. -/
theorem C1_find_then_create_race :
    joinChatResolvePhase initState "A" "B" = none ∧
    (joinChatCreatePhase initState "A" "B"
        (joinChatResolvePhase initState "A" "B")).2.id ≠
      (joinChatCreatePhase
        (joinChatCreatePhase initState "A" "B"
          (joinChatResolvePhase initState "A" "B")).1 "A" "B"
        (joinChatResolvePhase initState "A" "B")).2.id ∧
    ((joinChatCreatePhase
        (joinChatCreatePhase initState "A" "B"
          (joinChatResolvePhase initState "A" "B")).1 "A" "B"
        (joinChatResolvePhase initState "A" "B")).1.chats.filter
      (fun c => c.participants.contains "A" && c.participants.contains "B")).length = 2 := by
  decide

/-- The query `chatHistoryQuery` reads only the message collection. -/
theorem chatHistoryQuery_congr {st st' : ServerState} (h : st'.messages = st.messages)
    (cid : Nat) : chatHistoryQuery st' cid = chatHistoryQuery st cid := by
  unfold chatHistoryQuery chatMessages
  rw [h]

/-- C2 (amended): the `chat_history` payload is ordered oldest→newest but,
because the query sorts `createdAt` ascending *before* applying `limit(50)`,
a chat holding more than 50 messages yields the OLDEST 50, not the most
recent 50: the delivered list is an ascending-ordered prefix of length
`min 50 n` of the ascending ordering of the chat's messages, and every
`join_chat` delivers exactly this list in its `chat_history` event. -/
theorem C2_history_oldest_50 (st : ServerState) (cid : Nat) :
    (chatHistoryQuery st cid).length = min 50 (chatMessages st cid).length ∧
    (∃ rest, (chatHistoryQuery st cid ++ rest).Pairwise createdLE ∧
      (chatHistoryQuery st cid ++ rest).Perm (chatMessages st cid)) ∧
    (∀ a b sock, ∃ c, Effect.chatHistory sock (chatHistoryQuery st c) ∈
      (join_chat a b sock st).2) := by
  have hs := List.sorted_insertionSort createdLE (chatMessages st cid)
  have hp := List.perm_insertionSort createdLE (chatMessages st cid)
  refine ⟨?_, ?_, ?_⟩
  · unfold chatHistoryQuery
    rw [List.length_take, hp.length_eq]
  · refine ⟨(List.insertionSort createdLE (chatMessages st cid)).drop 50, ?_, ?_⟩
    · unfold chatHistoryQuery
      rw [List.take_append_drop]
      exact hs
    · unfold chatHistoryQuery
      rw [List.take_append_drop]
      exact hp
  · intro a b sock
    refine ⟨(joinChatCreatePhase st a b (joinChatResolvePhase st a b)).2.id, ?_⟩
    unfold join_chat
    dsimp only
    have hmsgs : (joinRoom sock (joinChatCreatePhase st a b (joinChatResolvePhase st a b)).2.id
        (joinChatCreatePhase st a b (joinChatResolvePhase st a b)).1).messages = st.messages := by
      rw [joinRoom_messages]
      unfold joinChatCreatePhase
      split <;> simp
    rw [chatHistoryQuery_congr hmsgs]
    split
    · split
      · simp
      · simp
    · simp

/-- Counterexample for C2 as stated: chat 0 of `stC2` holds 51 messages; the
newest one (`createdAt = 50`, strictly newer than all others) — necessarily a
member of "the most recent 50" — is NOT in the delivered history, because the
query keeps the oldest 50. -/
theorem C2_counterexample :
    (chatMessages stC2 0).length = 51 ∧
    mkMsg 50 0 "A" "m" .sent ["A"] 50 ∈ chatMessages stC2 0 ∧
    (∀ y ∈ chatMessages stC2 0, y.createdAt ≤ 50) ∧
    (chatHistoryQuery stC2 0).length = 50 ∧
    mkMsg 50 0 "A" "m" .sent ["A"] 50 ∉ chatHistoryQuery stC2 0 := by
  decide

theorem findMsg_congr {st st' : ServerState} (h : st'.messages = st.messages) (mid : Nat) :
    findMsg st' mid = findMsg st mid := by
  unfold findMsg
  rw [h]

theorem statusRank_le_two (s : MsgStatus) : statusRank s ≤ 2 := by
  cases s <;> simp [statusRank]

theorem joinChatCreatePhase_messages (st : ServerState) (a b : UserId) (f : Option Chat) :
    (joinChatCreatePhase st a b f).1.messages = st.messages := by
  unfold joinChatCreatePhase
  split <;> simp

theorem joinChatCreatePhase_nextMsgId (st : ServerState) (a b : UserId) (f : Option Chat) :
    (joinChatCreatePhase st a b f).1.nextMsgId = st.nextMsgId := by
  unfold joinChatCreatePhase
  split <;> simp

theorem join_chat_messages (a b : UserId) (s : SocketId) (st : ServerState) :
    (join_chat a b s st).1.messages = st.messages := by
  unfold join_chat
  dsimp only
  split
  · split <;> simp [joinChatCreatePhase_messages]
  · simp [joinChatCreatePhase_messages]

theorem join_chat_nextMsgId (a b : UserId) (s : SocketId) (st : ServerState) :
    (join_chat a b s st).1.nextMsgId = st.nextMsgId := by
  unfold join_chat
  dsimp only
  split
  · split <;> simp [joinChatCreatePhase_nextMsgId]
  · simp [joinChatCreatePhase_nextMsgId]

theorem accept_chat_messages (c : Nat) (s : SocketId) (st : ServerState) :
    (accept_chat c s st).1.messages = st.messages := by
  unfold accept_chat
  simp

theorem accept_chat_nextMsgId (c : Nat) (s : SocketId) (st : ServerState) :
    (accept_chat c s st).1.nextMsgId = st.nextMsgId := by
  unfold accept_chat
  simp

theorem disconnect_messages (s : SocketId) (st : ServerState) :
    (disconnect s st).1.messages = st.messages := by
  unfold disconnect
  split <;> rfl

theorem disconnect_nextMsgId (s : SocketId) (st : ServerState) :
    (disconnect s st).1.nextMsgId = st.nextMsgId := by
  unfold disconnect
  split <;> rfl

theorem send_message_of_empty {text : String} (h : jsTrim text = "")
    (a b : UserId) (c : Option Nat) (s : SocketId) (st : ServerState) :
    send_message a b text c s st = (st, []) := by
  unfold send_message
  rw [if_pos h]

theorem sendCore_nextMsgId (a b : UserId) (text : String) (s : SocketId)
    (st : ServerState) (chat : Chat) :
    (sendCore a b text s st chat).1.nextMsgId = st.nextMsgId + 1 := by
  unfold sendCore
  cases h : mapGet b st.onlineUsers with
  | none =>
      simp only [joinRoom_onlineUsers, h, joinRoom_nextMsgId, joinRoom_now, joinRoom_messages]
  | some rs =>
      by_cases hlive : rs ∈ st.liveSockets <;>
        simp only [joinRoom_onlineUsers, h, joinRoom_nextMsgId, joinRoom_now, joinRoom_messages,
          joinRoom_liveSockets, hlive, if_pos, if_neg, not_false_iff]

/-- An existing message is never touched by `send_message`: the handler only
appends a fresh-id document and updates that same fresh id. -/
theorem send_message_preserves_found (a b : UserId) (text : String) (c : Option Nat)
    (s : SocketId) (st : ServerState) (hWF : MsgWF st) (mid : Nat) (m : Message)
    (h : findMsg st mid = some m) :
    findMsg (send_message a b text c s st).1 mid = some m := by
  by_cases ht : jsTrim text = ""
  · rw [send_message_of_empty ht]
    exact h
  · have hfind2 : st.messages.find? (fun mm => mm.id == mid) = some m := h
    have hmid : m.id = mid := by simpa using List.find?_some hfind2
    have hlt : m.id < st.nextMsgId := hWF m (List.mem_of_find?_eq_some hfind2)
    unfold send_message
    rw [if_neg ht]
    have hm1 : (resolveChatForSend a b c st).1.messages = st.messages :=
      resolveChatForSend_messages a b c st
    have hn1 : (resolveChatForSend a b c st).1.nextMsgId = st.nextMsgId :=
      resolveChatForSend_nextMsgId a b c st
    have happ : ((resolveChatForSend a b c st).1.messages ++
        [freshMsg (resolveChatForSend a b c st).1 a text
          (resolveChatForSend a b c st).2]).find? (fun mm => mm.id == mid) = some m := by
      rw [hm1]
      exact find?_append_of_some hfind2 _
    cases hrs : mapGet b (resolveChatForSend a b c st).1.onlineUsers with
    | none =>
        unfold findMsg
        rw [sendCore_messages_none hrs]
        exact happ
    | some rs =>
        unfold findMsg
        rw [sendCore_messages_some hrs]
        rw [find?_updateFirst_disjoint ?_ ?_]
        · exact happ
        · intro x hx
          rw [beq_eq_false_iff_ne]
          have hxid : x.id = (resolveChatForSend a b c st).1.nextMsgId := by simpa using hx
          rw [hxid, hn1]
          omega
        · intro x hx
          rw [beq_eq_false_iff_ne]
          have hxid : x.id = (resolveChatForSend a b c st).1.nextMsgId := by simpa using hx
          rw [hxid, hn1]
          omega

/-- One dispatched event never moves a stored message's status backwards and
never shrinks its readBy list. -/
theorem applyOp_msg_step (op : ServerOp) (st : ServerState) (hWF : MsgWF st)
    (mid : Nat) (m m' : Message)
    (h : findMsg st mid = some m) (h' : findMsg (applyOp op st).1 mid = some m') :
    statusRank m.status ≤ statusRank m'.status ∧ m.readBy.Sublist m'.readBy := by
  have frame : ∀ st' : ServerState, st'.messages = st.messages →
      findMsg st' mid = some m' → statusRank m.status ≤ statusRank m'.status ∧
        m.readBy.Sublist m'.readBy := by
    intro st' he hh
    rw [findMsg_congr he, h] at hh
    obtain rfl : m = m' := by simpa using hh
    exact ⟨Nat.le_refl _, List.Sublist.refl _⟩
  cases op with
  | user_online u s => exact frame _ rfl h'
  | typing c u s => exact frame _ rfl h'
  | stop_typing c u s => exact frame _ rfl h'
  | accept_chat c s => exact frame _ (accept_chat_messages c s st) h'
  | disconnect s => exact frame _ (disconnect_messages s st) h'
  | join_chat a b s => exact frame _ (join_chat_messages a b s st) h'
  | send_message a b t c s =>
      have hsame := send_message_preserves_found a b t c s st hWF mid m h
      rw [show (applyOp (ServerOp.send_message a b t c s) st) =
        send_message a b t c s st from rfl] at h'
      rw [hsame] at h'
      obtain rfl : m = m' := by simpa using h'
      exact ⟨Nat.le_refl _, List.Sublist.refl _⟩
  | mark_as_read mid₀ u =>
      rw [show (applyOp (ServerOp.mark_as_read mid₀ u) st) =
        mark_as_read mid₀ u st from rfl] at h'
      unfold mark_as_read at h'
      cases hf : findMsg st mid₀ with
      | none =>
          simp only [hf] at h'
          exact frame _ rfl h'
      | some m₀ =>
          simp only [hf] at h'
          by_cases hmem : u ∈ m₀.readBy
          · rw [if_pos hmem] at h'
            exact frame _ rfl h'
          · rw [if_neg hmem] at h'
            have hfind2 : st.messages.find? (fun mm => mm.id == mid) = some m := h
            by_cases heq : mid = mid₀
            · subst heq
              have hm0 : m₀ = m := by
                have : findMsg st mid = some m₀ := hf
                rw [h] at this
                simpa using this.symm
              subst hm0
              have hp : (m₀.id == mid) = true := by simpa using List.find?_some hfind2
              have hself := find?_updateFirst_self (f := fun mm : Message =>
                { mm with readBy := mm.readBy ++ [u], status := .read }) hfind2
                (by simpa using hp)
              have hh : (updateFirst (fun mm => mm.id == mid)
                  (fun mm : Message =>
                    { mm with readBy := mm.readBy ++ [u], status := .read })
                  st.messages).find? (fun mm => mm.id == mid) = some m' := h'
              rw [hself] at hh
              obtain rfl : ({ m₀ with readBy := m₀.readBy ++ [u], status := .read }
                  : Message) = m' := by simpa using hh
              refine ⟨?_, ?_⟩
              · exact statusRank_le_two _
              · exact List.sublist_append_left _ _
            · have hdisj := find?_updateFirst_disjoint
                (p := fun mm : Message => mm.id == mid)
                (q := fun mm : Message => mm.id == mid₀)
                (f := fun mm : Message =>
                  { mm with readBy := mm.readBy ++ [u], status := .read })
                (l := st.messages) ?_ ?_
              · have hh : (updateFirst (fun mm => mm.id == mid₀)
                    (fun mm : Message =>
                      { mm with readBy := mm.readBy ++ [u], status := .read })
                    st.messages).find? (fun mm => mm.id == mid) = some m' := h'
                rw [hdisj, hfind2] at hh
                obtain rfl : m = m' := by simpa using hh
                exact ⟨Nat.le_refl _, List.Sublist.refl _⟩
              · intro x hx
                rw [beq_eq_false_iff_ne]
                have hxid : x.id = mid₀ := by simpa using hx
                rw [hxid]
                omega
              · intro x hx
                rw [beq_eq_false_iff_ne]
                have hxid : x.id = mid₀ := by simpa using hx
                rw [hxid]
                omega

theorem sendCore_wf (a b : UserId) (text : String) (s : SocketId)
    (st : ServerState) (chat : Chat) (hWF : MsgWF st) :
    MsgWF (sendCore a b text s st chat).1 := by
  intro m hm
  rw [sendCore_nextMsgId]
  cases hrs : mapGet b st.onlineUsers with
  | none =>
      rw [sendCore_messages_none hrs] at hm
      rcases List.mem_append.mp hm with hm | hm
      · exact Nat.lt_succ_of_lt (hWF m hm)
      · obtain rfl : m = freshMsg st a text chat := by simpa using hm
        exact Nat.lt_succ_self _
  | some rs =>
      rw [sendCore_messages_some hrs] at hm
      have hmem := mem_updateFirst hm
      rcases hmem with hm' | ⟨y, hy, rfl⟩
      · rcases List.mem_append.mp hm' with hm' | hm'
        · exact Nat.lt_succ_of_lt (hWF m hm')
        · obtain rfl : m = freshMsg st a text chat := by simpa using hm'
          exact Nat.lt_succ_self _
      · rcases List.mem_append.mp hy with hy | hy
        · exact Nat.lt_succ_of_lt (hWF y hy)
        · obtain rfl : y = freshMsg st a text chat := by simpa using hy
          exact Nat.lt_succ_self _

theorem applyOp_wf (op : ServerOp) (st : ServerState) (hWF : MsgWF st) :
    MsgWF (applyOp op st).1 := by
  have frame : ∀ st' : ServerState, st'.messages = st.messages →
      st'.nextMsgId = st.nextMsgId → MsgWF st' := by
    intro st' hm hn x hx
    rw [hn]
    exact hWF x (hm ▸ hx)
  cases op with
  | user_online u s => exact frame _ rfl rfl
  | typing c u s => exact frame _ rfl rfl
  | stop_typing c u s => exact frame _ rfl rfl
  | accept_chat c s => exact frame _ (accept_chat_messages c s st) (accept_chat_nextMsgId c s st)
  | disconnect s => exact frame _ (disconnect_messages s st) (disconnect_nextMsgId s st)
  | join_chat a b s => exact frame _ (join_chat_messages a b s st) (join_chat_nextMsgId a b s st)
  | send_message a b t c s =>
      by_cases ht : jsTrim t = ""
      · rw [show applyOp (ServerOp.send_message a b t c s) st = send_message a b t c s st
          from rfl, send_message_of_empty ht]
        exact hWF
      · rw [show applyOp (ServerOp.send_message a b t c s) st = send_message a b t c s st
          from rfl]
        unfold send_message
        rw [if_neg ht]
        exact sendCore_wf a b t s _ _ (resolveChatForSend_wf hWF a b c)
  | mark_as_read mid₀ u =>
      rw [show applyOp (ServerOp.mark_as_read mid₀ u) st = mark_as_read mid₀ u st from rfl]
      unfold mark_as_read
      cases hf : findMsg st mid₀ with
      | none => exact hWF
      | some m₀ =>
          dsimp only
          by_cases hmem : u ∈ m₀.readBy
          · rw [if_pos hmem]
            exact hWF
          · rw [if_neg hmem]
            intro x hx
            rcases mem_updateFirst hx with hx' | ⟨y, hy, rfl⟩
            · exact hWF x hx'
            · exact hWF y hy

theorem foldl_wf (ops : List ServerOp) :
    ∀ st : ServerState, MsgWF st →
      MsgWF (ops.foldl (fun s op => (applyOp op s).1) st) := by
  induction ops with
  | nil => intro st h; exact h
  | cons op rest ih =>
      intro st h
      exact ih _ (applyOp_wf op st h)

theorem runWF (ops : List ServerOp) : MsgWF (run ops) := by
  unfold run
  refine foldl_wf ops initState ?_
  intro m hm
  simp [initState] at hm

/-- C7: along every event sequence from the fresh server, appending one more
event never decreases any stored message's status rank along
sent → delivered → read and never removes a reader from its readBy list. -/
theorem C7_status_monotone (ops : List ServerOp) (op : ServerOp) (mid : Nat)
    (m m' : Message)
    (h : findMsg (run ops) mid = some m)
    (h' : findMsg (run (ops ++ [op])) mid = some m') :
    statusRank m.status ≤ statusRank m'.status ∧ m.readBy.Sublist m'.readBy := by
  have hrun : run (ops ++ [op]) = (applyOp op (run ops)).1 := by
    unfold run
    rw [List.foldl_append]
    rfl
  rw [hrun] at h'
  exact applyOp_msg_step op (run ops) (runWF ops) mid m m' h h'

/-- Witness for C7: message 0 goes from `sent` after an offline send to
`read` with one more reader after a `mark_as_read`. -/
theorem C7_status_monotone_witness :
    statusRank (mkMsg 0 0 "A" "hi" .sent ["A"] 0).status ≤
      statusRank (mkMsg 0 0 "A" "hi" .read ["A", "B"] 0).status ∧
    (mkMsg 0 0 "A" "hi" .sent ["A"] 0).readBy.Sublist
      (mkMsg 0 0 "A" "hi" .read ["A", "B"] 0).readBy :=
  C7_status_monotone [.send_message "A" "B" "hi" none 0] (.mark_as_read 0 "B") 0
    (mkMsg 0 0 "A" "hi" .sent ["A"] 0) (mkMsg 0 0 "A" "hi" .read ["A", "B"] 0)
    (by decide) (by decide)

end BloodLink
